import Mathlib

/-!
# Verification of the spiritoffire retry-dispatch engine

Shallow embedding of the repository's core:

* `Worker` (src/spiritoffire/workers/__init__.py) — the polymorphic task
  unit with hooks `on_start`, `task(retry_count)`, `on_stop`.  A concrete
  worker is modelled by the observable behaviour of its three hooks: each
  either returns normally (`.ok ()`) or raises an exception, modelled as
  `.error e` with the exception rendered as a `String`.  The field `wid`
  models Python object identity, so that distinct workers enqueued into
  the same engine can be told apart in the event trace.
* `QueueData` (src/spiritoffire/models/queue_data.py) — the retry
  envelope: a worker plus `retry_count`, `max_retry` and `next_attempt`.
  Python `datetime` values are modelled as integers on a wall-clock
  timeline; Python `int` is modelled as `Int`.
* `QueueManager.start` (src/spiritoffire/core/queue_manager.py) — the
  single-consumer dispatch loop, modelled as a step function `step` on the
  queue contents plus a fuel-indexed iteration `run`.  The wall clock is a
  function `times : Nat -> Int` giving the value of `datetime.now()` at
  each loop iteration; the `threading.Event` stop flag is a boolean that
  is constant during a run (nothing inside `start` sets it).
* `StopItem` (spiritoffire/workers/stop_item.py; the file itself is not in
  the sources, only its use) is modelled from the spec as the dataless
  sentinel constructor `Item.stopItem`; any dequeued value that is neither
  a `StopItem` nor a `QueueData` is `Item.malformed`.
* The Mongo-backed adapters (src/spiritoffire/adapters/*.py) are modelled
  over an in-memory list of stored documents; `insert_one` is modelled by
  appending a document whose `_id` is the item's own id when present
  (pydantic `model_dump(by_alias=True, exclude_none=True)` keeps a
  non-`None` id as `_id`) and otherwise a caller-supplied fresh id.
-/

/-- Exceptions raised by Python code, rendered by their message. -/
abbrev Exn := String

/-- A task unit (class `Worker`): three hooks, each of which either
returns normally or raises.  `wid` models the identity of the Python
worker object. -/
structure Worker where
  wid : Nat
  on_start : Except Exn Unit
  task : Int → Except Exn Unit
  on_stop : Except Exn Unit

/-- A retry envelope (class `QueueData`): defaults in the source are
`retry_count = 0`, `max_retry = 3`, `next_attempt = datetime.now()`. -/
structure QueueData where
  worker : Worker
  retry_count : Int := 0
  max_retry : Int := 3
  next_attempt : Int

/-- One observable hook invocation, tagged with the worker's identity. -/
inductive Ev where
  | on_start (wid : Nat)
  | task (wid : Nat) (retry_count : Int)
  | on_stop (wid : Nat)
deriving DecidableEq, Repr

/-- `QueueData.__call__`:

```python
def __call__(self):
    logger.info(...)
    self.worker.on_start()
    self.worker.task(self.retry_count)
    self.worker.on_stop()
```

Returns the envelope after the call (the body assigns no field, so it is
the input itself), the trace of hook invocations (a hook that raises is
still recorded as invoked), and the outcome: `.ok ()` if the body ran to
completion, `.error e` if some hook raised `e` (nothing in the body
catches, so the first raise aborts the remaining statements and
propagates). -/
def QueueData.call (q : QueueData) : QueueData × List Ev × Except Exn Unit :=
  match q.worker.on_start with
  | .error e => (q, [.on_start q.worker.wid], .error e)
  | .ok _ =>
    match q.worker.task q.retry_count with
    | .error e =>
      (q, [.on_start q.worker.wid, .task q.worker.wid q.retry_count], .error e)
    | .ok _ =>
      match q.worker.on_stop with
      | .error e =>
        (q, [.on_start q.worker.wid, .task q.worker.wid q.retry_count,
             .on_stop q.worker.wid], .error e)
      | .ok _ =>
        (q, [.on_start q.worker.wid, .task q.worker.wid q.retry_count,
             .on_stop q.worker.wid], .ok ())

/-- An item held by the engine's queue: the sentinel `StopItem`, a retry
envelope, or any other (malformed) value such as `None`. -/
inductive Item where
  | stopItem
  | data (q : QueueData)
  | malformed

/-- Observable events of one run of the dispatch loop. -/
inductive LoopEv where
  /-- A worker hook was invoked (from inside `item()`). -/
  | hook (e : Ev)
  /-- The `except` clause caught an exception and logged it. -/
  | caught (e : Exn)
  /-- `logger.error("Invalid item in queue, ...")` for a non-`QueueData`. -/
  | invalidItem
  /-- `logger.info("Received StopItem, exiting loop")`. -/
  | receivedStop
deriving DecidableEq, Repr

/-- Result of one iteration of the `while` body of `QueueManager.start`. -/
inductive StepResult where
  /-- `self.queue.get()` blocks forever: the queue is empty. -/
  | blocked
  /-- `break` was executed: the loop terminates with this queue left. -/
  | stopped (evs : List LoopEv) (queue : List Item)
  /-- The iteration finished and the loop continues on this queue. -/
  | next (evs : List LoopEv) (queue : List Item)

/-- The events emitted by one iteration. -/
def StepResult.events : StepResult → List LoopEv
  | .blocked => []
  | .stopped evs _ => evs
  | .next evs _ => evs

/-- The worker-hook events among a list of loop events. -/
def hookEvents (evs : List LoopEv) : List Ev :=
  evs.filterMap fun le => match le with
    | .hook e => some e
    | _ => none

/-- One iteration of the body of `QueueManager.start`:

```python
try:
    item = self.queue.get()
    if isinstance(item, StopItem):
        logger.info("Received StopItem, exiting loop"); break
    if not isinstance(item, QueueData):
        logger.error(...); continue
    if item.retry_count > item.max_retry:
        continue
    if datetime.now() > item.next_attempt:
        item()
    else:
        self.queue.put(item)
except Exception as ex:
    logger.error(ex)
```

`now` is the value of `datetime.now()` in this iteration.  The only
statement in the body that can raise is `item()`; the `except` clause
catches it, logs it, and the loop continues. -/
def step (now : Int) : List Item → StepResult
  | [] => .blocked
  | .stopItem :: rest => .stopped [.receivedStop] rest
  | .malformed :: rest => .next [.invalidItem] rest
  | .data q :: rest =>
    if q.retry_count > q.max_retry then
      .next [] rest
    else if now > q.next_attempt then
      match q.call with
      | (_, tr, .ok _) => .next (tr.map .hook) rest
      | (_, tr, .error e) => .next (tr.map .hook ++ [.caught e]) rest
    else
      .next [] (rest ++ [.data q])

/-- Result of running the loop for a bounded number of iterations. -/
inductive RunResult where
  /-- The loop blocked on an empty queue after emitting these events. -/
  | blocked (evs : List LoopEv)
  /-- The loop terminated (stop flag observed or `break`). -/
  | stopped (evs : List LoopEv) (queue : List Item)
  /-- The iteration budget ran out with the loop still going. -/
  | outOfFuel (evs : List LoopEv) (queue : List Item)

/-- Prepend earlier events to a run result. -/
def RunResult.prepend (evs : List LoopEv) : RunResult → RunResult
  | .blocked evs' => .blocked (evs ++ evs')
  | .stopped evs' q => .stopped (evs ++ evs') q
  | .outOfFuel evs' q => .outOfFuel (evs ++ evs') q

/-- The events emitted by a bounded run. -/
def RunResult.events : RunResult → List LoopEv
  | .blocked evs => evs
  | .stopped evs _ => evs
  | .outOfFuel evs _ => evs

/-- `QueueManager.start`, iterated up to `fuel` times: `while not
self.stop.is_set(): <body>`.  `times k` is the value of `datetime.now()`
at iteration `k`; `stopFlag` is the state of the `threading.Event`
(constant during the run, since nothing in `start` sets it). -/
def run (times : Nat → Int) (stopFlag : Bool) : Nat → List Item → RunResult
  | 0, queue => .outOfFuel [] queue
  | fuel + 1, queue =>
    if stopFlag then
      .stopped [] queue
    else
      match step (times 0) queue with
      | .blocked => .blocked []
      | .stopped evs q => .stopped evs q
      | .next evs q =>
        (run (fun k => times (k + 1)) stopFlag fuel q).prepend evs

/-- The spec's `is_eligible(now)` (§4.1), transcribed from its words for
comparison with the code: `attempt_count <= attempt_ceiling` and
`now >= not_before`. -/
def specIsEligible (q : QueueData) (now : Int) : Prop :=
  q.retry_count ≤ q.max_retry ∧ now ≥ q.next_attempt

instance (q : QueueData) (now : Int) : Decidable (specIsEligible q now) :=
  inferInstanceAs (Decidable (_ ∧ _))

/-- A `Publication` record (src/spiritoffire/models/publication.py over
`BaseCollection` in models/__init__.py): `id: Optional[str]` (alias
`_id`), `source: str`, `callback_url: str`, `target: Optional[str]`. -/
structure Publication where
  id : Option String
  source : String
  callback_url : String
  target : Option String
deriving DecidableEq, Repr

/-- A document stored in the mongo `publication` collection; every stored
document carries a definite `_id`. -/
structure PubDoc where
  _id : String
  source : String
  callback_url : String
  target : Option String
deriving DecidableEq, Repr

/-- Modelled from the spec: the `Subscription` record class
(src/spiritoffire/models/subscription.py is absent from the sources; only
its use in subscription_adapter.py is visible).  The adapter reads
exactly the fields `id` and `target`, and the spec keys subscription
dedupe on "matching target alone". -/
structure Subscription where
  id : Option String
  target : Option String
deriving DecidableEq, Repr

/-- A document stored in the mongo `subscription` collection. -/
structure SubDoc where
  _id : String
  target : Option String
deriving DecidableEq, Repr

namespace PublicationAdapter

/-- `PublicationAdapter.exists`: `find_one({"callback_url":
item.callback_url, "target": item.target})` — the first stored document
matching both fields, or `None`. -/
def findExisting (coll : List PubDoc) (item : Publication) : Option PubDoc :=
  coll.find? fun d =>
    d.callback_url == item.callback_url && d.target == item.target

/-- `PublicationAdapter.add`: if `exists` finds nothing, `insert_one` the
item's dump (`by_alias=True, exclude_none=True`: the `_id` field is the
item's own `id` when set, otherwise mongo generates one — modelled by the
caller-supplied `fresh`) and return the inserted id; otherwise return
`item.id` (which is `Optional`).  Returns the collection after the call
and the returned identifier. -/
def add (coll : List PubDoc) (fresh : String) (item : Publication) :
    List PubDoc × Option String :=
  match findExisting coll item with
  | none =>
    let newId := item.id.getD fresh
    (coll ++ [⟨newId, item.source, item.callback_url, item.target⟩],
     some newId)
  | some _ => (coll, item.id)

end PublicationAdapter

namespace SubscriptionAdapter

/-- `SubscriptionAdapter.exists`: `find_one({"target": item.target})` —
the first stored document with matching target, or `None`. -/
def findExisting (coll : List SubDoc) (item : Subscription) : Option SubDoc :=
  coll.find? fun d => d.target == item.target

/-- `SubscriptionAdapter.add`, structured exactly like
`PublicationAdapter.add` but with the subscription uniqueness key. -/
def add (coll : List SubDoc) (fresh : String) (item : Subscription) :
    List SubDoc × Option String :=
  match findExisting coll item with
  | none =>
    let newId := item.id.getD fresh
    (coll ++ [⟨newId, item.target⟩], some newId)
  | some _ => (coll, item.id)

end SubscriptionAdapter

/-! ## Basic facts about `QueueData.call` and `step` -/

/-- If `on_start` raises `e`, the call records only that invocation and
propagates `e`. -/
theorem QueueData.call_eq_start_err (q : QueueData) (e : Exn)
    (h0 : q.worker.on_start = Except.error e) :
    QueueData.call q = (q, [Ev.on_start q.worker.wid], Except.error e) := by
  simp only [QueueData.call, h0]

/-- If `on_start` returns and `task` raises `e`, the call records those
two invocations, never reaches `on_stop`, and propagates `e`. -/
theorem QueueData.call_eq_task_err (q : QueueData) (e : Exn)
    (h0 : q.worker.on_start = Except.ok ())
    (h1 : q.worker.task q.retry_count = Except.error e) :
    QueueData.call q
      = (q, [Ev.on_start q.worker.wid, Ev.task q.worker.wid q.retry_count],
         Except.error e) := by
  simp only [QueueData.call, h0, h1]

/-- If only `on_stop` raises `e`, all three invocations are recorded and
`e` propagates. -/
theorem QueueData.call_eq_stop_err (q : QueueData) (e : Exn)
    (h0 : q.worker.on_start = Except.ok ())
    (h1 : q.worker.task q.retry_count = Except.ok ())
    (h2 : q.worker.on_stop = Except.error e) :
    QueueData.call q
      = (q, [Ev.on_start q.worker.wid, Ev.task q.worker.wid q.retry_count,
             Ev.on_stop q.worker.wid], Except.error e) := by
  simp only [QueueData.call, h0, h1, h2]

/-- If every hook returns, the call records the three invocations in
order and returns normally. -/
theorem QueueData.call_eq_all_ok (q : QueueData)
    (h0 : q.worker.on_start = Except.ok ())
    (h1 : q.worker.task q.retry_count = Except.ok ())
    (h2 : q.worker.on_stop = Except.ok ()) :
    QueueData.call q
      = (q, [Ev.on_start q.worker.wid, Ev.task q.worker.wid q.retry_count,
             Ev.on_stop q.worker.wid], Except.ok ()) := by
  simp only [QueueData.call, h0, h1, h2]

/-- `__call__` assigns no field of `self`: the envelope after the call is
the envelope before it. -/
theorem QueueData.call_fst (q : QueueData) : (QueueData.call q).1 = q := by
  rcases h0 : q.worker.on_start with e | ⟨⟩
  · rw [QueueData.call_eq_start_err q e h0]
  · rcases h1 : q.worker.task q.retry_count with e | ⟨⟩
    · rw [QueueData.call_eq_task_err q e h0 h1]
    · rcases h2 : q.worker.on_stop with e | ⟨⟩
      · rw [QueueData.call_eq_stop_err q e h0 h1 h2]
      · rw [QueueData.call_eq_all_ok q h0 h1 h2]

/-- `__call__` always invokes at least one hook (`on_start` is the first
statement after the log line). -/
theorem QueueData.call_trace_ne_nil (q : QueueData) :
    (QueueData.call q).2.1 ≠ [] := by
  rcases h0 : q.worker.on_start with e | ⟨⟩
  · rw [QueueData.call_eq_start_err q e h0]; simp
  · rcases h1 : q.worker.task q.retry_count with e | ⟨⟩
    · rw [QueueData.call_eq_task_err q e h0 h1]; simp
    · rcases h2 : q.worker.on_stop with e | ⟨⟩
      · rw [QueueData.call_eq_stop_err q e h0 h1 h2]; simp
      · rw [QueueData.call_eq_all_ok q h0 h1 h2]; simp

/-- Every `task` invocation recorded by `__call__` is on the envelope's
own worker, with the envelope's own `retry_count`. -/
theorem QueueData.call_task_event (q : QueueData) (w : Nat) (rc : Int)
    (h : Ev.task w rc ∈ (QueueData.call q).2.1) :
    w = q.worker.wid ∧ rc = q.retry_count := by
  rcases h0 : q.worker.on_start with e | ⟨⟩
  · rw [QueueData.call_eq_start_err q e h0] at h
    simp at h
  · rcases h1 : q.worker.task q.retry_count with e | ⟨⟩
    · rw [QueueData.call_eq_task_err q e h0 h1] at h
      simp at h
      exact ⟨h.1, h.2⟩
    · rcases h2 : q.worker.on_stop with e | ⟨⟩
      · rw [QueueData.call_eq_stop_err q e h0 h1 h2] at h
        simp at h
        exact ⟨h.1, h.2⟩
      · rw [QueueData.call_eq_all_ok q h0 h1 h2] at h
        simp at h
        exact ⟨h.1, h.2⟩

/-- If the body of `__call__` runs to completion, the recorded trace is
exactly `on_start`, `task(retry_count)`, `on_stop`, in that order. -/
theorem QueueData.call_ok_trace (q : QueueData)
    (h : (QueueData.call q).2.2 = Except.ok ()) :
    (QueueData.call q).2.1
      = [Ev.on_start q.worker.wid, Ev.task q.worker.wid q.retry_count,
         Ev.on_stop q.worker.wid] := by
  rcases h0 : q.worker.on_start with e | ⟨⟩
  · rw [QueueData.call_eq_start_err q e h0] at h
    simp at h
  · rcases h1 : q.worker.task q.retry_count with e | ⟨⟩
    · rw [QueueData.call_eq_task_err q e h0 h1] at h
      simp at h
    · rcases h2 : q.worker.on_stop with e | ⟨⟩
      · rw [QueueData.call_eq_stop_err q e h0 h1 h2]
      · rw [QueueData.call_eq_all_ok q h0 h1 h2]

/-- An eligible head envelope whose call completes: the step dispatches
it, emits exactly its hook trace, and drops it from the queue. -/
theorem step_data_exec_ok (now : Int) (q : QueueData) (rest : List Item)
    (h1 : q.retry_count ≤ q.max_retry) (h2 : q.next_attempt < now)
    (h3 : (QueueData.call q).2.2 = Except.ok ()) :
    step now (Item.data q :: rest)
      = StepResult.next ((QueueData.call q).2.1.map LoopEv.hook) rest := by
  rcases hq : QueueData.call q with ⟨q', tr, out⟩
  rw [hq] at h3
  simp only at h3
  subst h3
  simp only [step, hq]
  rw [if_neg (by omega), if_pos h2]

/-- An eligible head envelope whose call raises `e`: the step dispatches
it, the `except` clause records `e`, and the envelope is dropped. -/
theorem step_data_exec_err (now : Int) (q : QueueData) (rest : List Item)
    (e : Exn) (h1 : q.retry_count ≤ q.max_retry) (h2 : q.next_attempt < now)
    (h3 : (QueueData.call q).2.2 = Except.error e) :
    step now (Item.data q :: rest)
      = StepResult.next
          ((QueueData.call q).2.1.map LoopEv.hook ++ [LoopEv.caught e])
          rest := by
  rcases hq : QueueData.call q with ⟨q', tr, out⟩
  rw [hq] at h3
  simp only at h3
  subst h3
  simp only [step, hq]
  rw [if_neg (by omega), if_pos h2]

/-- An exhausted head envelope is dropped: no event, queue shortened. -/
theorem step_data_exhausted (now : Int) (q : QueueData) (rest : List Item)
    (h1 : q.max_retry < q.retry_count) :
    step now (Item.data q :: rest) = StepResult.next [] rest := by
  simp only [step]
  rw [if_pos (by omega)]

/-- A not-yet-due, not exhausted head envelope is re-queued at the tail,
unchanged: no event. -/
theorem step_data_requeue (now : Int) (q : QueueData) (rest : List Item)
    (h1 : q.retry_count ≤ q.max_retry) (h2 : now ≤ q.next_attempt) :
    step now (Item.data q :: rest)
      = StepResult.next [] (rest ++ [Item.data q]) := by
  simp only [step]
  rw [if_neg (by omega), if_neg (by omega)]

/-- A due head envelope is consumed in one iteration (dropped or
dispatched, never re-queued), and every `task` hook event of that
iteration is on the envelope's own worker. -/
theorem step_data_due (now : Int) (q : QueueData) (rest : List Item)
    (h2 : q.next_attempt < now) :
    ∃ evs, step now (Item.data q :: rest) = StepResult.next evs rest ∧
      ∀ w rc, LoopEv.hook (Ev.task w rc) ∈ evs → w = q.worker.wid := by
  by_cases h1 : q.max_retry < q.retry_count
  · exact ⟨[], step_data_exhausted now q rest h1, by simp⟩
  · rcases h3 : (QueueData.call q).2.2 with e | u
    · refine ⟨_, step_data_exec_err now q rest e (by omega) h2 h3, ?_⟩
      intro w rc hw
      simp only [List.mem_append, List.mem_map, List.mem_singleton] at hw
      rcases hw with ⟨ev, hev, heq⟩ | habs
      · cases heq
        exact (QueueData.call_task_event q w rc hev).1
      · cases habs
    · refine ⟨_, step_data_exec_ok now q rest (by omega) h2 h3, ?_⟩
      intro w rc hw
      simp only [List.mem_map] at hw
      rcases hw with ⟨ev, hev, heq⟩
      cases heq
      exact (QueueData.call_task_event q w rc hev).1

/-- `hookEvents` distributes over append. -/
theorem hookEvents_append (a b : List LoopEv) :
    hookEvents (a ++ b) = hookEvents a ++ hookEvents b := by
  simp [hookEvents]

/-- The hook events of a mapped hook trace are the trace itself. -/
theorem hookEvents_map_hook (tr : List Ev) :
    hookEvents (tr.map LoopEv.hook) = tr := by
  induction tr with
  | nil => rfl
  | cons e tl ih => simp [hookEvents] at ih ⊢; exact ih

/-- A worker all of whose hooks return normally. -/
def okWorker (w : Nat) : Worker :=
  { wid := w, on_start := Except.ok (), task := fun _ => Except.ok (),
    on_stop := Except.ok () }

/-- A worker whose `task` hook raises `e`; the other hooks return. -/
def taskFailWorker (w : Nat) (e : Exn) : Worker :=
  { wid := w, on_start := Except.ok (), task := fun _ => Except.error e,
    on_stop := Except.ok () }

/-- An envelope at its retry ceiling of 0, already due. -/
def qCeiling0 : QueueData :=
  { worker := okWorker 0, retry_count := 0, max_retry := 0, next_attempt := 0 }

/-- A fresh envelope whose `next_attempt` is exactly 5. -/
def qBoundary : QueueData :=
  { worker := okWorker 1, retry_count := 0, max_retry := 3, next_attempt := 5 }

/-- An envelope past its ceiling: 4 attempts recorded, ceiling 3. -/
def qExhausted : QueueData :=
  { worker := okWorker 2, retry_count := 4, max_retry := 3, next_attempt := 0 }

/-- An envelope exactly at its ceiling: 3 attempts recorded, ceiling 3. -/
def qLastTry : QueueData :=
  { worker := okWorker 3, retry_count := 3, max_retry := 3, next_attempt := 0 }

/-- A fresh envelope due only at time 100. -/
def qFuture : QueueData :=
  { worker := okWorker 4, retry_count := 0, max_retry := 3, next_attempt := 100 }

/-- A fresh envelope with an all-succeeding worker, due at time 0. -/
def qSucc : QueueData := { worker := okWorker 5, next_attempt := 0 }

/-- A fresh envelope whose worker's `task` raises `"boom"`. -/
def qTaskFail : QueueData :=
  { worker := taskFailWorker 6 "boom", next_attempt := 0 }

/-- A dispatched head envelope leaves a nonempty hook trace in the
iteration's events. -/
theorem step_dispatch_hooks_ne_nil (now : Int) (q : QueueData)
    (rest : List Item) (h1 : q.retry_count ≤ q.max_retry)
    (h2 : q.next_attempt < now) :
    hookEvents (step now (Item.data q :: rest)).events ≠ [] := by
  rcases h3 : (QueueData.call q).2.2 with e | u
  · rw [step_data_exec_err now q rest e h1 h2 h3]
    simp only [StepResult.events, hookEvents_append, hookEvents_map_hook]
    intro habs
    exact QueueData.call_trace_ne_nil q (by simpa [hookEvents] using habs)
  · rw [step_data_exec_ok now q rest h1 h2 h3]
    simp only [StepResult.events, hookEvents_map_hook]
    exact QueueData.call_trace_ne_nil q

/-! ## Claims -/

/-- C1, counterexample: on the concrete ceiling-0 envelope `qCeiling0`,
`__call__` does not increment `retry_count` (it stays 0, not 1), the
envelope is not exhausted afterwards, and a second dispatch of the very
same envelope invokes the worker's hooks again. -/
theorem call_increment_counterexample :
    (QueueData.call qCeiling0).1.retry_count ≠ qCeiling0.retry_count + 1 ∧
    (QueueData.call qCeiling0).1.retry_count = qCeiling0.retry_count ∧
    ¬ (QueueData.call qCeiling0).1.retry_count
        > (QueueData.call qCeiling0).1.max_retry ∧
    hookEvents (step 1 [Item.data (QueueData.call qCeiling0).1]).events
      ≠ [] := by
  decide

/-- C1 (amended): `__call__` leaves the envelope — in particular
`retry_count` — unchanged; consequently an envelope with
`attempt_ceiling = 0` and `attempt_count = 0` is not exhausted after its
first dispatch, and its worker is dispatched again whenever the engine
dequeues it while it is due. -/
theorem call_leaves_retry_count_unchanged (q : QueueData) (now : Int)
    (rest : List Item) (hc : q.retry_count = 0) (hm : q.max_retry = 0)
    (hn : q.next_attempt < now) :
    (QueueData.call q).1 = q ∧
    ¬ (QueueData.call q).1.retry_count > (QueueData.call q).1.max_retry ∧
    hookEvents (step now (Item.data (QueueData.call q).1 :: rest)).events
      ≠ [] := by
  refine ⟨QueueData.call_fst q, ?_, ?_⟩
  · rw [QueueData.call_fst q]
    omega
  · rw [QueueData.call_fst q]
    exact step_dispatch_hooks_ne_nil now q rest (by omega) hn

/-- Witness for C1's amended theorem at `qCeiling0`, time 1. -/
theorem call_leaves_retry_count_unchanged_witness :
    (QueueData.call qCeiling0).1 = qCeiling0 ∧
    ¬ (QueueData.call qCeiling0).1.retry_count
        > (QueueData.call qCeiling0).1.max_retry ∧
    hookEvents (step 1 [Item.data (QueueData.call qCeiling0).1]).events
      ≠ [] :=
  call_leaves_retry_count_unchanged qCeiling0 1 [] rfl rfl (by decide)

/-- C2, counterexample: at the boundary `now = next_attempt` the spec's
`is_eligible` is true for `qBoundary`, yet the engine invokes no hook and
re-queues the envelope instead. -/
theorem boundary_not_dispatched_counterexample :
    specIsEligible qBoundary 5 ∧
    hookEvents (step 5 [Item.data qBoundary]).events = [] ∧
    step 5 [Item.data qBoundary]
      = StepResult.next [] ([] ++ [Item.data qBoundary]) := by
  refine ⟨by decide, by decide, ?_⟩
  exact step_data_requeue 5 qBoundary [] (by decide) (by decide)

/-- C2 (amended): the dispatch loop invokes a dequeued envelope's hooks
iff `retry_count ≤ max_retry` and `now` is *strictly* after
`next_attempt` (`datetime.now() > item.next_attempt`); at
`now = next_attempt` the envelope is not executed. -/
theorem dispatched_iff_strictly_due (now : Int) (q : QueueData)
    (rest : List Item) :
    hookEvents (step now (Item.data q :: rest)).events ≠ [] ↔
      q.retry_count ≤ q.max_retry ∧ q.next_attempt < now := by
  constructor
  · intro h
    by_cases h1 : q.max_retry < q.retry_count
    · rw [step_data_exhausted now q rest h1] at h
      simp [StepResult.events, hookEvents] at h
    · by_cases h2 : q.next_attempt < now
      · exact ⟨by omega, h2⟩
      · rw [step_data_requeue now q rest (by omega) (by omega)] at h
        simp [StepResult.events, hookEvents] at h
  · intro h
    exact step_dispatch_hooks_ne_nil now q rest h.1 h.2

/-- C5: an exhausted envelope (`retry_count > max_retry`) is dropped
silently — no hook, no re-queue, no event — while an envelope exactly at
its ceiling (`retry_count = max_retry`), being due, is still dispatched:
the ceiling is inclusive. -/
theorem exhausted_dropped_silently (now : Int) (q : QueueData)
    (rest : List Item) :
    (q.max_retry < q.retry_count →
      step now (Item.data q :: rest) = StepResult.next [] rest) ∧
    (q.retry_count = q.max_retry → q.next_attempt < now →
      hookEvents (step now (Item.data q :: rest)).events ≠ []) := by
  constructor
  · intro h1
    exact step_data_exhausted now q rest h1
  · intro h1 h2
    exact step_dispatch_hooks_ne_nil now q rest (by omega) h2

/-- Witness for C5 at `qExhausted` (dropped) and `qLastTry`
(dispatched), time 1. -/
theorem exhausted_dropped_silently_witness :
    step 1 [Item.data qExhausted] = StepResult.next [] [] ∧
    hookEvents (step 1 [Item.data qLastTry]).events ≠ [] :=
  ⟨(exhausted_dropped_silently 1 qExhausted []).1 (by decide),
   (exhausted_dropped_silently 1 qLastTry []).2 (by decide) (by decide)⟩

/-- C6: a not-exhausted, not-yet-due envelope is re-appended to the tail
of the queue as the very same value — every field unchanged — with no
event, and the loop continues. -/
theorem not_due_requeued_unchanged (now : Int) (q : QueueData)
    (rest : List Item) (h1 : q.retry_count ≤ q.max_retry)
    (h2 : now ≤ q.next_attempt) :
    step now (Item.data q :: rest)
      = StepResult.next [] (rest ++ [Item.data q]) :=
  step_data_requeue now q rest h1 h2

/-- Witness for C6 at `qFuture`, time 5. -/
theorem not_due_requeued_unchanged_witness :
    step 5 [Item.data qFuture]
      = StepResult.next [] ([] ++ [Item.data qFuture]) :=
  not_due_requeued_unchanged 5 qFuture [] (by decide) (by decide)

/-- C7: a malformed item is skipped with only the invalid-item log — no
crash, no re-queue, no hook — and a queue holding just a malformed item
then the sentinel terminates with no task ever called. -/
theorem malformed_item_skipped (now : Int) (rest : List Item) :
    step now (Item.malformed :: rest)
      = StepResult.next [LoopEv.invalidItem] rest ∧
    run (fun _ => now) false 2 [Item.malformed, Item.stopItem]
      = RunResult.stopped [LoopEv.invalidItem, LoopEv.receivedStop] [] ∧
    hookEvents [LoopEv.invalidItem, LoopEv.receivedStop] = [] :=
  ⟨rfl, rfl, rfl⟩

/-- C8: when dispatched, `__call__` invokes exactly `on_start`, then
`task(retry_count)`, then `on_stop`, in that order, and catches nothing:
the first hook to raise aborts the rest and its exception is the call's
outcome. -/
theorem call_hook_order_and_propagation (q : QueueData) :
    (q.worker.on_start = Except.ok () →
      q.worker.task q.retry_count = Except.ok () →
      q.worker.on_stop = Except.ok () →
      QueueData.call q
        = (q, [Ev.on_start q.worker.wid, Ev.task q.worker.wid q.retry_count,
               Ev.on_stop q.worker.wid], Except.ok ())) ∧
    (∀ e, q.worker.on_start = Except.error e →
      QueueData.call q = (q, [Ev.on_start q.worker.wid], Except.error e)) ∧
    (∀ e, q.worker.on_start = Except.ok () →
      q.worker.task q.retry_count = Except.error e →
      QueueData.call q
        = (q, [Ev.on_start q.worker.wid, Ev.task q.worker.wid q.retry_count],
           Except.error e)) ∧
    (∀ e, q.worker.on_start = Except.ok () →
      q.worker.task q.retry_count = Except.ok () →
      q.worker.on_stop = Except.error e →
      QueueData.call q
        = (q, [Ev.on_start q.worker.wid, Ev.task q.worker.wid q.retry_count,
               Ev.on_stop q.worker.wid], Except.error e)) :=
  ⟨fun h0 h1 h2 => QueueData.call_eq_all_ok q h0 h1 h2,
   fun e h0 => QueueData.call_eq_start_err q e h0,
   fun e h0 h1 => QueueData.call_eq_task_err q e h0 h1,
   fun e h0 h1 h2 => QueueData.call_eq_stop_err q e h0 h1 h2⟩

/-- Witness for C8 at the all-succeeding envelope `qSucc`. -/
theorem call_hook_order_and_propagation_witness :
    QueueData.call qSucc
      = (qSucc, [Ev.on_start 5, Ev.task 5 0, Ev.on_stop 5],
         Except.ok ()) :=
  (call_hook_order_and_propagation qSucc).1 rfl rfl rfl

/-- C10: if `on_start` returns and `task` raises, the recorded trace is
exactly `on_start` then `task(retry_count)` — `on_start` was invoked,
`on_stop` was not — and the exception is the call's outcome. -/
theorem task_failure_skips_on_stop (q : QueueData) (e : Exn)
    (h0 : q.worker.on_start = Except.ok ())
    (h1 : q.worker.task q.retry_count = Except.error e) :
    (QueueData.call q).2.1
        = [Ev.on_start q.worker.wid, Ev.task q.worker.wid q.retry_count] ∧
    (QueueData.call q).2.2 = Except.error e ∧
    Ev.on_start q.worker.wid ∈ (QueueData.call q).2.1 ∧
    Ev.on_stop q.worker.wid ∉ (QueueData.call q).2.1 := by
  rw [QueueData.call_eq_task_err q e h0 h1]
  refine ⟨rfl, rfl, by simp, by simp⟩

/-- Witness for C10 at `qTaskFail`. -/
theorem task_failure_skips_on_stop_witness :
    (QueueData.call qTaskFail).2.1 = [Ev.on_start 6, Ev.task 6 0] ∧
    (QueueData.call qTaskFail).2.2 = Except.error "boom" ∧
    Ev.on_start 6 ∈ (QueueData.call qTaskFail).2.1 ∧
    Ev.on_stop 6 ∉ (QueueData.call qTaskFail).2.1 :=
  task_failure_skips_on_stop qTaskFail "boom" rfl rfl

/-- Unfolding `run` (constant clock) when the iteration continues. -/
theorem runC_cons_next (now : Int) (fuel : Nat) (queue q2 : List Item)
    (evs : List LoopEv) (h : step now queue = StepResult.next evs q2) :
    run (fun _ => now) false (fuel + 1) queue
      = (run (fun _ => now) false fuel q2).prepend evs := by
  simp [run, h]

/-- Unfolding `run` (constant clock) when the iteration breaks. -/
theorem runC_cons_stopped (now : Int) (fuel : Nat) (queue q2 : List Item)
    (evs : List LoopEv) (h : step now queue = StepResult.stopped evs q2) :
    run (fun _ => now) false (fuel + 1) queue = RunResult.stopped evs q2 := by
  simp [run, h]

/-- C3: an envelope whose `__call__` raises does not stop the loop: the
`except` clause records the exception, the loop moves on, a subsequently
enqueued successful envelope's `task` is still invoked, and the sentinel
then terminates the run cleanly. -/
theorem failing_task_does_not_stop_loop (now : Int) (qf qs : QueueData)
    (e : Exn)
    (hf1 : qf.retry_count ≤ qf.max_retry) (hf2 : qf.next_attempt < now)
    (hfe : (QueueData.call qf).2.2 = Except.error e)
    (hs1 : qs.retry_count ≤ qs.max_retry) (hs2 : qs.next_attempt < now)
    (hso : (QueueData.call qs).2.2 = Except.ok ()) :
    ∃ evs,
      run (fun _ => now) false 3 [Item.data qf, Item.data qs, Item.stopItem]
        = RunResult.stopped evs [] ∧
      LoopEv.caught e ∈ evs ∧
      LoopEv.hook (Ev.task qs.worker.wid qs.retry_count) ∈ evs ∧
      LoopEv.receivedStop ∈ evs := by
  have tr2 := QueueData.call_ok_trace qs hso
  have s1 := step_data_exec_err now qf [Item.data qs, Item.stopItem] e hf1
    hf2 hfe
  have s2 := step_data_exec_ok now qs [Item.stopItem] hs1 hs2 hso
  refine ⟨((QueueData.call qf).2.1.map LoopEv.hook ++ [LoopEv.caught e]) ++
      ((QueueData.call qs).2.1.map LoopEv.hook ++ [LoopEv.receivedStop]),
    ?_, ?_, ?_, ?_⟩
  · rw [show (3 : Nat) = 2 + 1 from rfl, runC_cons_next now 2 _ _ _ s1,
      show (2 : Nat) = 1 + 1 from rfl, runC_cons_next now 1 _ _ _ s2]
    rfl
  · simp
  · rw [tr2]
    simp
  · simp

/-- Witness for C3: the `"boom"`-raising envelope `qTaskFail` followed by
the successful `qSucc` and the sentinel, at time 1. -/
theorem failing_task_does_not_stop_loop_witness :
    ∃ evs,
      run (fun _ => 1) false 3
          [Item.data qTaskFail, Item.data qSucc, Item.stopItem]
        = RunResult.stopped evs [] ∧
      LoopEv.caught "boom" ∈ evs ∧
      LoopEv.hook (Ev.task qSucc.worker.wid qSucc.retry_count) ∈ evs ∧
      LoopEv.receivedStop ∈ evs :=
  failing_task_does_not_stop_loop 1 qTaskFail qSucc "boom" (by decide)
    (by decide) rfl (by decide) (by decide) rfl

/-- C4: with `N` due envelopes ahead of the sentinel, the run terminates
within `N + 1` dequeues: the sentinel dequeue breaks the loop, the items
enqueued after the sentinel are left untouched, and every `task` hook
invoked during the run belongs to one of the `N` envelopes. -/
theorem sentinel_terminates_loop (pre : List QueueData) (post : List Item)
    (now : Int) (hdue : ∀ q ∈ pre, q.next_attempt < now) :
    ∃ evs,
      run (fun _ => now) false (pre.length + 1)
          (pre.map Item.data ++ Item.stopItem :: post)
        = RunResult.stopped evs post ∧
      ∀ w rc, LoopEv.hook (Ev.task w rc) ∈ evs →
        ∃ q ∈ pre, q.worker.wid = w := by
  induction pre with
  | nil =>
    refine ⟨[LoopEv.receivedStop], rfl, ?_⟩
    intro w rc h
    simp at h
  | cons q tl ih =>
    have hd : q.next_attempt < now := hdue q (List.mem_cons_self q tl)
    obtain ⟨evs1, hstep, hw1⟩ :=
      step_data_due now q (List.map Item.data tl ++ Item.stopItem :: post) hd
    obtain ⟨evs, hrun, hw⟩ := ih fun q2 hq2 => hdue q2 (List.mem_cons_of_mem q hq2)
    refine ⟨evs1 ++ evs, ?_, ?_⟩
    · have hq : (q :: tl).map Item.data ++ Item.stopItem :: post
          = Item.data q :: (List.map Item.data tl ++ Item.stopItem :: post) := by
        simp
      have hlen : (q :: tl).length + 1 = (tl.length + 1) + 1 := by simp
      rw [hq, hlen, runC_cons_next now (tl.length + 1) _ _ _ hstep, hrun]
      rfl
    · intro w rc hmem
      rcases List.mem_append.mp hmem with h1 | h2
      · exact ⟨q, List.mem_cons_self q tl, (hw1 w rc h1).symm⟩
      · obtain ⟨q2, hq2, hwid⟩ := hw w rc h2
        exact ⟨q2, List.mem_cons_of_mem q hq2, hwid⟩

/-- Witness for C4: one due envelope, the sentinel, and a trailing item
that must stay untouched, at time 1. -/
theorem sentinel_terminates_loop_witness :
    ∃ evs,
      run (fun _ => 1) false ([qSucc].length + 1)
          ([qSucc].map Item.data ++ Item.stopItem :: [Item.malformed])
        = RunResult.stopped evs [Item.malformed] ∧
      ∀ w rc, LoopEv.hook (Ev.task w rc) ∈ evs →
        ∃ q ∈ [qSucc], q.worker.wid = w :=
  sentinel_terminates_loop [qSucc] [Item.malformed] 1 (by
    intro q hq
    simp at hq
    subst hq
    decide)

/-- The stored publication and the deduplicating items used to check the
adapters' `add`. -/
def pubDocA : PubDoc :=
  { _id := "A", source := "s", callback_url := "u", target := some "t" }

/-- A publication equal to `pubDocA` on the uniqueness key but carrying
no id of its own. -/
def pubItemDup : Publication :=
  { id := none, source := "s", callback_url := "u", target := some "t" }

/-- A subscription with no stored counterpart. -/
def subItemNew : Subscription := { id := none, target := some "t" }

/-- C9, counterexample: the stored record's identifier is `"A"`, yet on a
duplicate `add` the adapter performs no insertion and returns the passed
item's own (absent) id — not `"A"`. -/
theorem add_existing_id_counterexample :
    PublicationAdapter.findExisting [pubDocA] pubItemDup = some pubDocA ∧
    (PublicationAdapter.add [pubDocA] "F" pubItemDup).1 = [pubDocA] ∧
    (PublicationAdapter.add [pubDocA] "F" pubItemDup).2 = none ∧
    (PublicationAdapter.add [pubDocA] "F" pubItemDup).2
      ≠ some pubDocA._id := by
  decide

/-- C9 (amended): when `exists` finds a match (publication key:
`callback_url` and `target`; subscription key: `target` alone) `add`
performs no insertion and returns the *passed item's* `id` field (which
may be absent and need not equal the stored record's identifier);
otherwise it appends the record and returns the new identifier. -/
theorem adapter_add_returns_item_id (collP : List PubDoc)
    (collS : List SubDoc) (fresh : String) (p : Publication)
    (s : Subscription) :
    (PublicationAdapter.findExisting collP p ≠ none →
      PublicationAdapter.add collP fresh p = (collP, p.id)) ∧
    (PublicationAdapter.findExisting collP p = none →
      PublicationAdapter.add collP fresh p
        = (collP ++ [⟨p.id.getD fresh, p.source, p.callback_url, p.target⟩],
           some (p.id.getD fresh))) ∧
    (SubscriptionAdapter.findExisting collS s ≠ none →
      SubscriptionAdapter.add collS fresh s = (collS, s.id)) ∧
    (SubscriptionAdapter.findExisting collS s = none →
      SubscriptionAdapter.add collS fresh s
        = (collS ++ [⟨s.id.getD fresh, s.target⟩],
           some (s.id.getD fresh))) := by
  refine ⟨?_, ?_, ?_, ?_⟩ <;> intro h
  · rcases hf : PublicationAdapter.findExisting collP p with _ | d
    · exact absurd hf h
    · simp [PublicationAdapter.add, hf]
  · simp [PublicationAdapter.add, h]
  · rcases hf : SubscriptionAdapter.findExisting collS s with _ | d
    · exact absurd hf h
    · simp [SubscriptionAdapter.add, hf]
  · simp [SubscriptionAdapter.add, h]

/-- Witness for C9: a duplicate publication `add` against `[pubDocA]` and
a fresh subscription `add` against the empty collection. -/
theorem adapter_add_returns_item_id_witness :
    PublicationAdapter.add [pubDocA] "F" pubItemDup
      = ([pubDocA], pubItemDup.id) ∧
    SubscriptionAdapter.add [] "F" subItemNew
      = ([] ++ [⟨subItemNew.id.getD "F", subItemNew.target⟩],
         some (subItemNew.id.getD "F")) :=
  ⟨(adapter_add_returns_item_id [pubDocA] [] "F" pubItemDup subItemNew).1
      (by decide),
   (adapter_add_returns_item_id [pubDocA] [] "F" pubItemDup subItemNew).2.2.2
      (by decide)⟩
